import Mathlib

/-!
Verification of the ticket-request chat program (src/main.py).

The program keeps a mutable ticket record (a Python dict mapping string
keys to JSON values), merges partial patches returned by a language model
into it, and finally submits the record to a ticketing backend over
JSON-RPC.  We embed the JSON data model, the dict operations the program
uses, and the three functions the claims are about: merge_ticket_state,
create_ticket_in_odoo and one iteration of the run_chat loop.
-/

set_option autoImplicit false

/-- A JSON value as produced by json.loads in Python.  Numbers are
modelled as integers: every number the program manipulates
(urgency_stars, uid, ticket_id, is_ticket_ready) is integral, and no
claim depends on fractional values. -/
inductive JVal where
  | null
  | bool (b : Bool)
  | num (n : Int)
  | str (s : String)
  | arr (xs : List JVal)
  | obj (fields : List (String × JVal))
deriving Repr

/-- A Python dict with string keys, in insertion order. -/
abbrev Dict := List (String × JVal)

/-- Python d.get(key): the value at the first matching key, if present. -/
def dictGet : Dict → String → Option JVal
  | [], _ => none
  | (k, v) :: rest, key => if k = key then some v else dictGet rest key

/-- Python d[key] = val: replace the value at an existing key in place
(keeping its position), or append a new entry at the end. -/
def dictInsert : Dict → String → JVal → Dict
  | [], key, val => [(key, val)]
  | (k, v) :: rest, key, val =>
      if k = key then (k, val) :: rest else (k, v) :: dictInsert rest key val

/-- Python str.strip() with no argument: remove leading and trailing
whitespace.  Written over the character list so that it evaluates by
kernel reduction on concrete strings. -/
def pyStrip (s : String) : String :=
  String.mk (((s.data.dropWhile Char.isWhitespace).reverse.dropWhile
    Char.isWhitespace).reverse)

/-- Python str.lower(): all the strings the program lowercases are
ASCII, where Char.toLower agrees with Python. -/
def pyLower (s : String) : String :=
  String.mk (s.data.map Char.toLower)

/-- Python bool(x) coercion on a JSON value: None, False, 0, the empty
string, the empty list and the empty dict are falsy; everything else is
truthy. -/
def truthy : JVal → Bool
  | .null => false
  | .bool b => b
  | .num n => n != 0
  | .str s => s != ""
  | .arr xs => !xs.isEmpty
  | .obj fs => !fs.isEmpty

/-- The values merge_ticket_state skips (main.py lines 257-260): None,
and strings that strip to the empty string. -/
def skipValue : JVal → Bool
  | .null => true
  | .str s => pyStrip s == ""
  | _ => false

/-- merge_ticket_state (main.py lines 250-261): iterate over the patch
entries in order; skip None values and whitespace-only strings; write
every other value into the state. -/
def merge_ticket_state (state : Dict) (new_ticket : Dict) : Dict :=
  new_ticket.foldl
    (fun st kv => if skipValue kv.2 then st else dictInsert st kv.1 kv.2)
    state

/-- The initial ticket_state dict (main.py lines 20-31); the reset at
lines 323-334 is the same literal. -/
def ticket_state : Dict :=
  [ ("type", JVal.null),
    ("title", JVal.null),
    ("problem_context", JVal.null),
    ("expected_outcome", JVal.null),
    ("proposed_solution", JVal.null),
    ("affected_users", JVal.null),
    ("priority", JVal.null),
    ("urgency_stars", JVal.null),
    ("source", JVal.str "Chatbot"),
    ("requested_by", JVal.null) ]

/-- Python d.get(key, default). -/
def dictGetD (d : Dict) (key : String) (dflt : JVal) : JVal :=
  (dictGet d key).getD dflt

mutual

/-- json.dumps for a JSON value.  The program calls json.dumps with
indent=2; the indentation whitespace is immaterial to every claim, so we
serialize without it.  String escaping is not modelled (no claim feeds
strings needing escapes through the serializer). -/
def json_dumps : JVal → String
  | .null => "null"
  | .bool b => if b then "true" else "false"
  | .num n => toString n
  | .str s => "\"" ++ s ++ "\""
  | .arr xs => "[" ++ String.intercalate ", " (json_dumps_list xs) ++ "]"
  | .obj fs => "\x7b" ++ String.intercalate ", " (json_dumps_fields fs) ++ "\x7d"

def json_dumps_list : List JVal → List String
  | [] => []
  | v :: vs => json_dumps v :: json_dumps_list vs

def json_dumps_fields : List (String × JVal) → List String
  | [] => []
  | (k, v) :: fs => ("\"" ++ k ++ "\": " ++ json_dumps v) :: json_dumps_fields fs

end

mutual

/-- Python repr() of a JSON value (None / True / False, quoted strings,
bracketed containers).  String escaping is not modelled. -/
def pyRepr : JVal → String
  | .null => "None"
  | .bool b => if b then "True" else "False"
  | .num n => toString n
  | .str s => "\x27" ++ s ++ "\x27"
  | .arr xs => "[" ++ String.intercalate ", " (pyReprList xs) ++ "]"
  | .obj fs => "\x7b" ++ String.intercalate ", " (pyReprFields fs) ++ "\x7d"

def pyReprList : List JVal → List String
  | [] => []
  | v :: vs => pyRepr v :: pyReprList vs

def pyReprFields : List (String × JVal) → List String
  | [] => []
  | (k, v) :: fs => ("\x27" ++ k ++ "\x27: " ++ pyRepr v) :: pyReprFields fs

end

/-- Python str() of a JSON value, as an f-string renders it: a string
renders as itself, anything else as its repr. -/
def pyStr : JVal → String
  | .str s => s
  | v => pyRepr v

/-- The priority_map dict (main.py lines 86-90). -/
def priority_map : List (String × String) :=
  [("low", "0"), ("medium", "1"), ("high", "2")]

/-- First-match lookup in a string-to-string assoc list (Python dict
lookup). -/
def listGet : List (String × String) → String → Option String
  | [], _ => none
  | (k, v) :: rest, key => if k = key then some v else listGet rest key

/-- priority_map.get(x, "1") where x may be any JSON value.  A Python
dict lookup hashes the key first: a hashable non-string key (None, a
bool, a number) matches no entry and yields the default, but an
unhashable key (a list or a dict) makes dict.get raise TypeError
before any default applies; none models that crash. -/
def priorityCode : JVal → Option String
  | .str s => some ((listGet priority_map s).getD "1")
  | .arr _ => none
  | .obj _ => none
  | _ => some "1"

/-- The mapped Odoo priority (main.py line 91):
priority_map.get(ticket.get("priority", "medium"), "1"); none when the
lookup raises TypeError on an unhashable priority value. -/
def odoo_priority (ticket : Dict) : Option String :=
  priorityCode (dictGetD ticket "priority" (.str "medium"))

/-- f-string rendering of ticket.get(k): absent keys render as None. -/
def pyGetStr (ticket : Dict) (k : String) : String :=
  pyStr (dictGetD ticket k .null)

/-- Rendering of (ticket.get(k) or ""): a falsy value renders as the
empty string (main.py line 98). -/
def pyGetOrEmptyStr (ticket : Dict) (k : String) : String :=
  let v := dictGetD ticket k .null
  if truthy v then pyStr v else ""

/-- The composed multi-line description (main.py lines 94-103), one
parenthesized group per f-string line of the source. -/
def description (ticket : Dict) : String :=
  ("Type: " ++ pyGetStr ticket "type" ++ "\n") ++
  ("Problem/Context:\n" ++ pyGetStr ticket "problem_context" ++ "\n\n") ++
  ("Expected Outcome:\n" ++ pyGetStr ticket "expected_outcome" ++ "\n\n") ++
  ("Proposed Solution:\n" ++ pyGetOrEmptyStr ticket "proposed_solution" ++ "\n\n") ++
  ("Affected Users:\n" ++ pyGetStr ticket "affected_users" ++ "\n\n") ++
  ("Urgency Stars: " ++ pyGetStr ticket "urgency_stars" ++ "\n") ++
  ("Requested By: " ++ pyGetStr ticket "requested_by" ++ "\n") ++
  ("Source: " ++ pyGetStr ticket "source" ++ "\n")

/-- The order in which ticket fields enter the description, read off
main.py lines 94-103. -/
def description_fields : List String :=
  [ "type", "problem_context", "expected_outcome", "proposed_solution",
    "affected_users", "urgency_stars", "requested_by", "source" ]

/-- The description segment contributed by one ticket field. -/
def descriptionSection (ticket : Dict) : String → String
  | "type" => "Type: " ++ pyGetStr ticket "type" ++ "\n"
  | "problem_context" => "Problem/Context:\n" ++ pyGetStr ticket "problem_context" ++ "\n\n"
  | "expected_outcome" => "Expected Outcome:\n" ++ pyGetStr ticket "expected_outcome" ++ "\n\n"
  | "proposed_solution" => "Proposed Solution:\n" ++ pyGetOrEmptyStr ticket "proposed_solution" ++ "\n\n"
  | "affected_users" => "Affected Users:\n" ++ pyGetStr ticket "affected_users" ++ "\n\n"
  | "urgency_stars" => "Urgency Stars: " ++ pyGetStr ticket "urgency_stars" ++ "\n"
  | "requested_by" => "Requested By: " ++ pyGetStr ticket "requested_by" ++ "\n"
  | "source" => "Source: " ++ pyGetStr ticket "source" ++ "\n"
  | _ => ""

/-- A (role, content) chat message. -/
abbrev Message := String × String

/-- The observable events of a run: printed lines, HTTP POSTs to the
backend, chat-completion requests, the call handing a ticket to
create_ticket_in_odoo, and an uncaught Python exception terminating
execution (nothing runs after a raise event). -/
inductive Event where
  | print (s : String)
  | networkCall (endpoint : String) (payload : JVal)
  | modelCall (messages : List Message)
  | submit (ticket : Dict)
  | raise (e : String)

/-- The lines printed during a trace, in order. -/
def printedLines : List Event → List String
  | [] => []
  | .print s :: es => s :: printedLines es
  | _ :: es => printedLines es

/-- The HTTP POSTs performed during a trace, in order. -/
def networkCalls : List Event → List (String × JVal)
  | [] => []
  | .networkCall ep p :: es => (ep, p) :: networkCalls es
  | _ :: es => networkCalls es

/-- The chat-completion requests performed during a trace, in order. -/
def modelCalls : List Event → List (List Message)
  | [] => []
  | .modelCall ms :: es => ms :: modelCalls es
  | _ :: es => modelCalls es

/-- The tickets handed to create_ticket_in_odoo during a trace, in
order. -/
def submits : List Event → List Dict
  | [] => []
  | .submit t :: es => t :: submits es
  | _ :: es => submits es

/-- The four backend configuration values read from the environment
(main.py lines 45-48); none means the variable is unset. -/
structure OdooConfig where
  odoo_url : Option String
  odoo_db : Option String
  odoo_username : Option String
  odoo_password : Option String

/-- Python truthiness of os.getenv output: None and the empty string
are falsy (the `not all([...])` guard at main.py line 50). -/
def envTruthy : Option String → Bool
  | none => false
  | some s => s != ""

/-- Outcome of one requests.post round trip: an exception (transport
failure or raise_for_status), or the parsed JSON response object. -/
inductive RpcOutcome where
  | exn (e : String)
  | ok (body : Dict)

/-- The responses the backend would give to the authenticate call and
to the create call. -/
structure NetworkOracle where
  authResponse : RpcOutcome
  createResponse : RpcOutcome

/-- The authentication request body (main.py lines 57-66). -/
def auth_payload (odoo_db odoo_username odoo_password : String) : JVal :=
  .obj [ ("jsonrpc", .str "2.0"),
         ("method", .str "call"),
         ("params", .obj [ ("service", .str "common"),
                           ("method", .str "login"),
                           ("args", .arr [ .str odoo_db, .str odoo_username,
                                           .str odoo_password ]) ]),
         ("id", .num 1) ]

/-- The create request body (main.py lines 106-128); odoo_pr is the
already-computed priority code of main.py line 91. -/
def create_payload (odoo_db : String) (uid : JVal) (odoo_password : String)
    (odoo_pr : String) (ticket : Dict) : JVal :=
  .obj [ ("jsonrpc", .str "2.0"),
         ("method", .str "call"),
         ("params", .obj [ ("service", .str "object"),
                           ("method", .str "execute_kw"),
                           ("args", .arr [ .str odoo_db, uid, .str odoo_password,
                                           .str "helpdesk.ticket", .str "create",
                                           .arr [ .obj [
                                             ("name", dictGetD ticket "title" .null),
                                             ("description", .str (description ticket)),
                                             ("priority", .str odoo_pr) ] ] ]) ]),
         ("id", .num 2) ]

/-- create_ticket_in_odoo (main.py lines 36-146) as the list of events
it performs, in order.  The function never mutates the ticket (it only
reads it), so the embedding takes the ticket as a read-only input and
returns the event trace.  When the priority lookup at line 91 raises
TypeError (unhashable priority value), execution dies right after the
authentication call: the trace ends in a raise event and nothing is
printed. -/
def create_ticket_in_odoo (cfg : OdooConfig) (net : NetworkOracle)
    (ticket : Dict) : List Event :=
  if !(envTruthy cfg.odoo_url && envTruthy cfg.odoo_db &&
       envTruthy cfg.odoo_username && envTruthy cfg.odoo_password) then
    [ .print "\n[ODOO] Missing Odoo env variables. Please set ODOO_URL, ODOO_DB, ODOO_USERNAME, ODOO_PASSWORD in .env.",
      .print "[ODOO] Ticket was NOT sent to Odoo, but payload is shown below:\n",
      .print (json_dumps (.obj ticket)) ]
  else
    let url := cfg.odoo_url.getD ""
    let db := cfg.odoo_db.getD ""
    let username := cfg.odoo_username.getD ""
    let password := cfg.odoo_password.getD ""
    let authCall := Event.networkCall (url ++ "/jsonrpc")
      (auth_payload db username password)
    match net.authResponse with
    | .exn e =>
        [ authCall,
          .print ("\n[ODOO] Error during authentication: " ++ e),
          .print "[ODOO] Ticket was NOT sent to Odoo, but payload is shown below:\n",
          .print (json_dumps (.obj ticket)) ]
    | .ok auth_data =>
        let uid := dictGetD auth_data "result" .null
        if !truthy uid then
          [ authCall,
            .print "\n[ODOO] Authentication failed, uid is empty.",
            .print "[ODOO] Ticket was NOT sent to Odoo, but payload is shown below:\n",
            .print (json_dumps (.obj ticket)) ]
        else
          match odoo_priority ticket with
          | none =>
              [ authCall, .raise "TypeError: unhashable type" ]
          | some odoo_pr =>
          let createCall := Event.networkCall (url ++ "/jsonrpc")
            (create_payload db uid password odoo_pr ticket)
          match net.createResponse with
          | .exn e =>
              [ authCall, createCall,
                .print ("\n[ODOO] Error creating ticket: " ++ e),
                .print "[ODOO] Ticket payload that failed:\n",
                .print (json_dumps (.obj ticket)) ]
          | .ok create_data =>
              let ticket_id := dictGetD create_data "result" .null
              if truthy ticket_id then
                [ authCall, createCall,
                  .print "\n[ODOO] Ticket successfully created in Odoo.",
                  .print ("[ODOO] New ticket ID: " ++ pyStr ticket_id ++ "\n") ]
              else
                [ authCall, createCall,
                  .print "\n[ODOO] Unknown error: no ticket_id returned.",
                  .print ("[ODOO] Raw response:\n" ++ " " ++ pyRepr (.obj create_data)) ]

/-- The in-process state run_chat owns: the ticket dict and the
conversation transcript. -/
structure ChatState where
  ticket : Dict
  conversation_messages : List Message

/-- What json.loads makes of the model reply content: a parse failure,
or a parsed JSON object.  (JSON mode makes the top level an object.) -/
inductive ModelReply where
  | invalidJson (raw : String)
  | parsed (data : Dict)

/-- Outcome of one iteration of the while loop in run_chat: the loop
breaks, continues with a new state, or dies on an uncaught exception
(e.g. calling .strip() on a non-string assistant_reply). -/
inductive TurnResult where
  | exited (events : List Event)
  | next (st : ChatState) (events : List Event)
  | crash (events : List Event)

/-- The events a turn performed, whatever its outcome. -/
def TurnResult.events : TurnResult → List Event
  | .exited es => es
  | .next _ es => es
  | .crash es => es

/-- The exit keywords at main.py line 275. -/
def exit_keywords : List String := ["exit", "quit"]

/-- The corrective assistant note appended on a JSON parse failure
(main.py lines 290-293). -/
def corrective_note : Message :=
  ("assistant", "I produced invalid JSON. Please ask your question again.")

/-- The body of one loop iteration after the exit-keyword guard
(main.py lines 280-339): append the user utterance, call the model,
parse, merge, print, and possibly submit. -/
def turn_body (st : ChatState) (user_input : String) (reply : ModelReply)
    (again : String) : TurnResult :=
    let conv := st.conversation_messages ++ [("user", user_input)]
    match reply with
    | .invalidJson _ =>
        .next { ticket := st.ticket,
                conversation_messages := conv ++ [corrective_note] }
          [ .modelCall conv,
            .print "Bot: Sorry, I had trouble formatting my response. Let me try again.\n" ]
    | .parsed data =>
        match dictGetD data "assistant_reply" (.str "") with
        | .str reply_s =>
            let assistant_reply := pyStrip reply_s
            let ticket_val := dictGetD data "ticket" (.obj [])
            let ticket_val := if truthy ticket_val then ticket_val else .obj []
            let is_ticket_ready := truthy (dictGetD data "is_ticket_ready" (.bool false))
            match ticket_val with
            | .obj new_ticket =>
                let merged := merge_ticket_state st.ticket new_ticket
                let conv2 := conv ++ [("assistant", assistant_reply)]
                if is_ticket_ready then
                  let base : List Event :=
                    [ .modelCall conv,
                      .print ("Bot: " ++ assistant_reply ++ "\n"),
                      .print "Bot: I believe the ticket is now ready. Here is a summary of what will be sent:\n",
                      .print (json_dumps (.obj merged)),
                      .submit merged ]
                  if pyLower (pyStrip again) = "y" then
                    .next { ticket := ticket_state, conversation_messages := [] }
                      (base ++ [.print "\nStarting a new ticket.\n"])
                  else
                    .exited (base ++ [.print "Bot: Okay, goodbye!"])
                else
                  .next { ticket := merged, conversation_messages := conv2 }
                    [ .modelCall conv,
                      .print ("Bot: " ++ assistant_reply ++ "\n") ]
            | _ => .crash [.modelCall conv]
        | _ => .crash [.modelCall conv]

/-- One iteration of the while loop in run_chat (main.py lines
273-339).  raw_input is the line typed at the "You: " prompt, reply is
what the model answered (unused when the turn exits first), and again
is the line typed at the "Create another ticket? (y/n): " prompt
(unused unless the ticket is ready). -/
def run_chat_turn (st : ChatState) (raw_input : String) (reply : ModelReply)
    (again : String) : TurnResult :=
  let user_input := pyStrip raw_input
  if pyLower user_input ∈ exit_keywords then
    .exited [.print "Bot: Goodbye!"]
  else
    turn_body st user_input reply again

theorem dictGet_insert_self (d : Dict) (k : String) (v : JVal) :
    dictGet (dictInsert d k v) k = some v := by
  induction d with
  | nil => simp [dictInsert, dictGet]
  | cons kv rest ih =>
      obtain ⟨k0, v0⟩ := kv
      by_cases h : k0 = k <;> simp [dictInsert, dictGet, h, ih]

theorem dictGet_insert_of_ne (d : Dict) (key f : String) (v : JVal) (h : f ≠ key) :
    dictGet (dictInsert d key v) f = dictGet d f := by
  induction d with
  | nil => simp [dictInsert, dictGet, Ne.symm h]
  | cons kv rest ih =>
      obtain ⟨k0, v0⟩ := kv
      by_cases hk : k0 = key
      · subst hk
        simp [dictInsert, dictGet, Ne.symm h]
      · simp [dictInsert, dictGet, hk, ih]

theorem merge_cons (st : Dict) (k : String) (v : JVal) (p : Dict) :
    merge_ticket_state st ((k, v) :: p) =
      merge_ticket_state (if skipValue v then st else dictInsert st k v) p := rfl

theorem dictGet_eq_none_of_not_mem_keys (p : Dict) (f : String)
    (h : f ∉ p.map Prod.fst) : dictGet p f = none := by
  induction p with
  | nil => rfl
  | cons kv rest ih =>
      obtain ⟨k, v⟩ := kv
      simp only [List.map_cons, List.mem_cons] at h
      push_neg at h
      simp [dictGet, Ne.symm h.1, ih h.2]

theorem not_mem_of_dictGet_none (p : Dict) (f : String)
    (h : dictGet p f = none) : ∀ w, (f, w) ∉ p := by
  induction p with
  | nil => simp
  | cons kv rest ih =>
      obtain ⟨k, v⟩ := kv
      intro w hw
      by_cases hk : k = f
      · simp [dictGet, hk] at h
      · simp only [dictGet, if_neg hk] at h
        rcases List.mem_cons.mp hw with h1 | h1
        · exact hk ((congrArg Prod.fst h1).symm)
        · exact ih h w h1

theorem merge_get_of_forall_skip (p : Dict) (st : Dict) (f : String)
    (h : ∀ v, (f, v) ∈ p → skipValue v = true) :
    dictGet (merge_ticket_state st p) f = dictGet st f := by
  induction p generalizing st with
  | nil => rfl
  | cons kv rest ih =>
      obtain ⟨k, v⟩ := kv
      rw [merge_cons]
      by_cases hk : k = f
      · subst hk
        rw [if_pos (h v (List.mem_cons_self _ _))]
        exact ih st (fun w hw => h w (List.mem_cons_of_mem _ hw))
      · by_cases hs : skipValue v
        · rw [if_pos hs]
          exact ih st (fun w hw => h w (List.mem_cons_of_mem _ hw))
        · rw [if_neg hs,
              ih _ (fun w hw => h w (List.mem_cons_of_mem _ hw)),
              dictGet_insert_of_ne st k f v (fun hh => hk hh.symm)]

theorem forall_skip_of_nodup (p : Dict) (f : String) (v : JVal)
    (hnd : (p.map Prod.fst).Nodup) (hget : dictGet p f = some v)
    (hs : skipValue v = true) : ∀ w, (f, w) ∈ p → skipValue w = true := by
  induction p with
  | nil => simp
  | cons kv rest ih =>
      obtain ⟨k, u⟩ := kv
      simp only [List.map_cons, List.nodup_cons] at hnd
      intro w hw
      by_cases hk : k = f
      · subst hk
        simp [dictGet] at hget
        rcases List.mem_cons.mp hw with h1 | h1
        · cases h1
          rw [hget]
          exact hs
        · exact absurd (List.mem_map_of_mem Prod.fst h1) hnd.1
      · simp only [dictGet, if_neg hk] at hget
        rcases List.mem_cons.mp hw with h1 | h1
        · exact absurd ((congrArg Prod.fst h1).symm) hk
        · exact ih hnd.2 hget w h1

theorem merge_get_of_get_nonskip (p : Dict) (st : Dict) (f : String) (v : JVal)
    (hnd : (p.map Prod.fst).Nodup) (hget : dictGet p f = some v)
    (hv : skipValue v = false) :
    dictGet (merge_ticket_state st p) f = some v := by
  induction p generalizing st with
  | nil => cases hget
  | cons kv rest ih =>
      obtain ⟨k, u⟩ := kv
      simp only [List.map_cons, List.nodup_cons] at hnd
      rw [merge_cons]
      by_cases hk : k = f
      · subst hk
        simp [dictGet] at hget
        subst hget
        rw [if_neg (by simp [hv]),
            merge_get_of_forall_skip rest _ k
              (fun w hw => absurd (List.mem_map_of_mem Prod.fst hw) hnd.1),
            dictGet_insert_self]
      · simp only [dictGet, if_neg hk] at hget
        exact ih _ hnd.2 hget

theorem foldl_merge_get_of_forall_skip (patches : List Dict) (st : Dict) (f : String)
    (h : ∀ p ∈ patches, ∀ v, (f, v) ∈ p → skipValue v = true) :
    dictGet (patches.foldl merge_ticket_state st) f = dictGet st f := by
  induction patches generalizing st with
  | nil => rfl
  | cons p rest ih =>
      rw [List.foldl_cons, ih _ (fun q hq => h q (List.mem_cons_of_mem _ hq)),
          merge_get_of_forall_skip p st f (h p (List.mem_cons_self _ _))]

/-- Claim C1: merge never regresses.  If the current ticket holds a
non-empty value at field f and the patch value at f is unset, null, or a
whitespace-only string, then the merged ticket keeps the old value at f;
hence within one session a non-empty field is only ever replaced by
another non-empty value. -/
theorem C1_merge_never_regresses (st patch : Dict) (f : String) (w : JVal)
    (hnd : (patch.map Prod.fst).Nodup)
    (hold : dictGet st f = some w) (hw : skipValue w = false)
    (hp : ∀ v, dictGet patch f = some v → skipValue v = true) :
    dictGet (merge_ticket_state st patch) f = dictGet st f := by
  cases hq : dictGet patch f with
  | none =>
      exact merge_get_of_forall_skip patch st f
        (fun v hv => absurd hv (not_mem_of_dictGet_none patch f hq v))
  | some v =>
      exact merge_get_of_forall_skip patch st f
        (forall_skip_of_nodup patch f v hnd hq (hp v hq))

/-- Witness for C1 at a concrete input: a null patch entry for source
leaves the initialized source value in place. -/
theorem C1_witness :
    dictGet (merge_ticket_state ticket_state
      [("source", JVal.null), ("title", JVal.str "T")]) "source"
      = dictGet ticket_state "source" :=
  C1_merge_never_regresses ticket_state
    [("source", JVal.null), ("title", JVal.str "T")] "source" (JVal.str "Chatbot")
    (by decide) rfl rfl (fun v hv => by cases hv; rfl)

/-- Claim C2: merge overwrites correctly and only touches patched
fields.  A patch field with a non-empty value wins regardless of the old
value, and a field absent from the patch keeps its old value. -/
theorem C2_merge_overwrites (st patch : Dict) (f : String)
    (hnd : (patch.map Prod.fst).Nodup) :
    (∀ v, dictGet patch f = some v → skipValue v = false →
        dictGet (merge_ticket_state st patch) f = some v)
    ∧ (dictGet patch f = none →
        dictGet (merge_ticket_state st patch) f = dictGet st f) :=
  ⟨fun v hget hv => merge_get_of_get_nonskip patch st f v hnd hget hv,
   fun hnone => merge_get_of_forall_skip patch st f
     (fun v hv => absurd hv (not_mem_of_dictGet_none patch f hnone v))⟩

/-- Witness for C2 at a concrete input: a non-empty title overwrites,
and the untouched source field keeps its old value. -/
theorem C2_witness :
    (dictGet (merge_ticket_state ticket_state [("title", JVal.str "T")]) "title"
        = some (JVal.str "T"))
    ∧ (dictGet (merge_ticket_state ticket_state [("title", JVal.str "T")]) "source"
        = dictGet ticket_state "source") :=
  ⟨(C2_merge_overwrites ticket_state [("title", JVal.str "T")] "title"
      (by decide)).1 (JVal.str "T") rfl rfl,
   (C2_merge_overwrites ticket_state [("title", JVal.str "T")] "source"
      (by decide)).2 rfl⟩

/-- Counterexample to claim C4 as stated: a model-returned patch whose
source entry is a different non-empty string does overwrite the source
field, so source is not a constant across arbitrary merges. -/
theorem C4_counterexample :
    dictGet (merge_ticket_state ticket_state
      [("source", JVal.str "Slack Chatbot")]) "source"
      = some (JVal.str "Slack Chatbot")
    ∧ JVal.str "Slack Chatbot" ≠ JVal.str "Chatbot" :=
  ⟨rfl, by simp⟩

/-- Claim C4 (amended): the source field is initialized to "Chatbot"
and keeps that value across any sequence of merges in which no patch
carries a non-empty source entry. -/
theorem C4_source_constant (patches : List Dict)
    (h : ∀ p ∈ patches, ∀ v, ("source", v) ∈ p → skipValue v = true) :
    dictGet (patches.foldl merge_ticket_state ticket_state) "source"
      = some (JVal.str "Chatbot") := by
  rw [foldl_merge_get_of_forall_skip patches ticket_state "source" h]
  rfl

/-- Witness for the amended C4 at a concrete input. -/
theorem C4_witness :
    dictGet ([[("source", JVal.null)]].foldl merge_ticket_state ticket_state)
      "source" = some (JVal.str "Chatbot") :=
  C4_source_constant [[("source", JVal.null)]]
    (by
      intro p hp v hv
      simp only [List.mem_singleton] at hp
      subst hp
      simp only [List.mem_singleton, Prod.mk.injEq, true_and] at hv
      subst hv
      rfl)

/-- Counterexample to claim C5 as stated: a list-valued priority does
not map to code "1" - the dict lookup raises TypeError instead of
defaulting - and the merge really lets a model patch put such a value
into the ticket. -/
theorem C5_counterexample :
    odoo_priority [("priority", JVal.arr [JVal.str "high"])] = none
    ∧ dictGet (merge_ticket_state ticket_state
        [("priority", JVal.arr [JVal.str "high"])]) "priority"
      = some (JVal.arr [JVal.str "high"]) :=
  ⟨rfl, rfl⟩

/-- Claim C5 (amended): the priority mapping defaults safely on every
hashable value: low maps to code "0", medium to "1", high to "2", and
any other absent, null, boolean, numeric or unmapped string value maps
to "1"; an unhashable (list or dict) priority value instead makes the
lookup raise TypeError, modelled as none. -/
theorem C5_priority_total (ticket : Dict) :
    (dictGet ticket "priority" = some (JVal.str "low") →
        odoo_priority ticket = some "0")
    ∧ (dictGet ticket "priority" = some (JVal.str "medium") →
        odoo_priority ticket = some "1")
    ∧ (dictGet ticket "priority" = some (JVal.str "high") →
        odoo_priority ticket = some "2")
    ∧ (dictGet ticket "priority" = none → odoo_priority ticket = some "1")
    ∧ (∀ v, dictGet ticket "priority" = some v →
        v ≠ JVal.str "low" → v ≠ JVal.str "medium" → v ≠ JVal.str "high" →
        (∀ xs, v ≠ JVal.arr xs) → (∀ fs, v ≠ JVal.obj fs) →
        odoo_priority ticket = some "1")
    ∧ (∀ xs, dictGet ticket "priority" = some (JVal.arr xs) →
        odoo_priority ticket = none)
    ∧ (∀ fs, dictGet ticket "priority" = some (JVal.obj fs) →
        odoo_priority ticket = none) := by
  refine ⟨fun h => ?_, fun h => ?_, fun h => ?_, fun h => ?_,
    fun v h h1 h2 h3 h4 h5 => ?_, fun xs h => ?_, fun fs h => ?_⟩
  · simp [odoo_priority, dictGetD, h, priorityCode, listGet, priority_map]
  · simp [odoo_priority, dictGetD, h, priorityCode, listGet, priority_map]
  · simp [odoo_priority, dictGetD, h, priorityCode, listGet, priority_map]
  · simp [odoo_priority, dictGetD, h, priorityCode, listGet, priority_map]
  · simp only [odoo_priority, dictGetD, h, Option.getD_some]
    cases v with
    | str s =>
        have hs1 : ¬ ("low" = s) := fun hh => h1 (by rw [hh])
        have hs2 : ¬ ("medium" = s) := fun hh => h2 (by rw [hh])
        have hs3 : ¬ ("high" = s) := fun hh => h3 (by rw [hh])
        simp [priorityCode, listGet, priority_map, hs1, hs2, hs3]
    | null => rfl
    | bool b => rfl
    | num n => rfl
    | arr xs => exact absurd rfl (h4 xs)
    | obj fs => exact absurd rfl (h5 fs)
  · simp [odoo_priority, dictGetD, h, priorityCode]
  · simp [odoo_priority, dictGetD, h, priorityCode]

/-- Witness for the amended C5 at concrete inputs: low maps to "0", an
absent priority maps to "1", a null priority maps to "1", a list
priority raises (none). -/
theorem C5_witness :
    odoo_priority [("priority", JVal.str "low")] = some "0"
    ∧ odoo_priority [] = some "1"
    ∧ odoo_priority [("priority", JVal.null)] = some "1"
    ∧ odoo_priority [("priority", JVal.arr [])] = none :=
  ⟨(C5_priority_total [("priority", JVal.str "low")]).1 rfl,
   (C5_priority_total []).2.2.2.1 rfl,
   (C5_priority_total [("priority", JVal.null)]).2.2.2.2.1 JVal.null rfl
     (by simp) (by simp) (by simp) (by simp) (by simp),
   (C5_priority_total [("priority", JVal.arr [])]).2.2.2.2.2.1 [] rfl⟩

/-- Claim C6: the composed description is the concatenation, in order,
of one section per field in the list type, problem_context,
expected_outcome, proposed_solution, affected_users, urgency_stars,
requested_by, source, and that list has no duplicates, so every field
appears exactly once and in exactly that order. -/
theorem C6_description_field_order (ticket : Dict) :
    description ticket
      = String.join (description_fields.map (descriptionSection ticket))
    ∧ description_fields
      = [ "type", "problem_context", "expected_outcome", "proposed_solution",
          "affected_users", "urgency_stars", "requested_by", "source" ]
    ∧ description_fields.Nodup := by
  refine ⟨?_, rfl, by decide⟩
  simp [description, description_fields, descriptionSection, String.join,
        String.append_assoc]

/-- Claim C7: when any of the four backend configuration values is
absent the submitter performs no network call and prints the full
ticket payload. -/
theorem C7_missing_env_dry_run (cfg : OdooConfig) (net : NetworkOracle)
    (ticket : Dict)
    (h : cfg.odoo_url = none ∨ cfg.odoo_db = none ∨
         cfg.odoo_username = none ∨ cfg.odoo_password = none) :
    networkCalls (create_ticket_in_odoo cfg net ticket) = []
    ∧ json_dumps (.obj ticket)
        ∈ printedLines (create_ticket_in_odoo cfg net ticket) := by
  have hguard : (envTruthy cfg.odoo_url && envTruthy cfg.odoo_db &&
      envTruthy cfg.odoo_username && envTruthy cfg.odoo_password) = false := by
    rcases h with h | h | h | h <;> simp [h, envTruthy]
  unfold create_ticket_in_odoo
  rw [hguard]
  simp [networkCalls, printedLines]

/-- Witness for C7 at a concrete input: with the endpoint unset, the
trace holds no network call and prints the initial payload. -/
theorem C7_witness :
    networkCalls (create_ticket_in_odoo ⟨none, some "db", some "user", some "pw"⟩
        ⟨.ok [], .ok []⟩ ticket_state) = []
    ∧ json_dumps (.obj ticket_state)
        ∈ printedLines (create_ticket_in_odoo ⟨none, some "db", some "user", some "pw"⟩
            ⟨.ok [], .ok []⟩ ticket_state) :=
  C7_missing_env_dry_run _ _ _ (Or.inl rfl)

/-- Counterexample to claim C3 as stated: when the create call succeeds
transport-wise but returns no record identifier, the program prints the
raw response but not the ticket payload, so this user-visible failure
is not accompanied by the in-memory payload. -/
theorem C3_counterexample :
    json_dumps (.obj ticket_state) ∉
      printedLines (create_ticket_in_odoo
        ⟨some "http://odoo.example.com", some "db", some "user", some "pw"⟩
        ⟨.ok [("result", JVal.num 7)], .ok [("jsonrpc", JVal.str "2.0")]⟩
        ticket_state)
    ∧ ("[ODOO] Raw response:\n" ++ " " ++ pyRepr (.obj [("jsonrpc", JVal.str "2.0")])) ∈
      printedLines (create_ticket_in_odoo
        ⟨some "http://odoo.example.com", some "db", some "user", some "pw"⟩
        ⟨.ok [("result", JVal.num 7)], .ok [("jsonrpc", JVal.str "2.0")]⟩
        ticket_state) := by
  constructor
  · decide
  · decide

/-- Claim C3 (amended): for a submission that reaches the create stage
(the priority lookup at line 91 does not raise), a create transport
failure is reported with the raw error together with the original
ticket payload, while an empty create result is reported with the raw
response only, without the payload. -/
theorem C3_create_failure_reporting (cfg : OdooConfig) (net : NetworkOracle)
    (ticket : Dict) (auth_data : Dict) (pr : String)
    (hurl : envTruthy cfg.odoo_url = true) (hdb : envTruthy cfg.odoo_db = true)
    (huser : envTruthy cfg.odoo_username = true)
    (hpw : envTruthy cfg.odoo_password = true)
    (hauth : net.authResponse = .ok auth_data)
    (huid : truthy (dictGetD auth_data "result" .null) = true)
    (hpr : odoo_priority ticket = some pr) :
    (∀ e, net.createResponse = .exn e →
        ("\n[ODOO] Error creating ticket: " ++ e)
          ∈ printedLines (create_ticket_in_odoo cfg net ticket)
        ∧ json_dumps (.obj ticket)
          ∈ printedLines (create_ticket_in_odoo cfg net ticket))
    ∧ (∀ body, net.createResponse = .ok body →
        truthy (dictGetD body "result" .null) = false →
        ("[ODOO] Raw response:\n" ++ " " ++ pyRepr (.obj body))
          ∈ printedLines (create_ticket_in_odoo cfg net ticket)) := by
  unfold create_ticket_in_odoo
  rw [hauth]
  simp only [hurl, hdb, huser, hpw, Bool.and_self, Bool.not_true,
    Bool.false_eq_true, if_false, huid, if_true, hpr]
  constructor
  · intro e he
    rw [he]
    simp [printedLines]
  · intro body hb hfalse
    rw [hb]
    simp [hfalse, printedLines]

/-- Witness for the amended C3 at a concrete input: a create transport
failure prints the error and the payload; an empty create result prints
the raw response. -/
theorem C3_witness :
    (("\n[ODOO] Error creating ticket: " ++ "boom")
        ∈ printedLines (create_ticket_in_odoo
            ⟨some "http://odoo.example.com", some "db", some "user", some "pw"⟩
            ⟨.ok [("result", JVal.num 7)], .exn "boom"⟩ ticket_state)
      ∧ json_dumps (.obj ticket_state)
        ∈ printedLines (create_ticket_in_odoo
            ⟨some "http://odoo.example.com", some "db", some "user", some "pw"⟩
            ⟨.ok [("result", JVal.num 7)], .exn "boom"⟩ ticket_state)) :=
  (C3_create_failure_reporting
    ⟨some "http://odoo.example.com", some "db", some "user", some "pw"⟩
    ⟨.ok [("result", JVal.num 7)], .exn "boom"⟩ ticket_state
    [("result", JVal.num 7)] "1" rfl rfl rfl rfl rfl rfl rfl).1 "boom" rfl

theorem turn_body_ne_goodbye (st : ChatState) (u : String) (reply : ModelReply)
    (again : String) :
    turn_body st u reply again ≠ .exited [.print "Bot: Goodbye!"] := by
  unfold turn_body
  cases reply with
  | invalidJson raw2 => simp
  | parsed data =>
      dsimp only
      split
      · split
        · split
          · split <;> simp
          · simp
        · simp
      · simp

theorem turn_body_modelCalls (st : ChatState) (u : String) (reply : ModelReply)
    (again : String) :
    modelCalls (turn_body st u reply again).events
      = [st.conversation_messages ++ [("user", u)]] := by
  unfold turn_body
  cases reply with
  | invalidJson raw2 => simp [TurnResult.events, modelCalls]
  | parsed data =>
      dsimp only
      split
      · split
        · split
          · split <;> simp [TurnResult.events, modelCalls]
          · simp [TurnResult.events, modelCalls]
        · simp [TurnResult.events, modelCalls]
      · simp [TurnResult.events, modelCalls]

/-- Counterexample to claim C9 as stated: the input line " exit " is
not a case-insensitive exact match of an exit keyword, yet the loop
terminates on it, because the code strips whitespace before
comparing. -/
theorem C9_counterexample :
    run_chat_turn ⟨ticket_state, []⟩ " exit " (.parsed []) "n"
      = .exited [.print "Bot: Goodbye!"]
    ∧ pyLower " exit " ≠ "exit" ∧ pyLower " exit " ≠ "quit" :=
  ⟨rfl, by decide, by decide⟩

/-- Claim C9 (amended): the loop terminates gracefully, without a model
call and with the transcript untouched, exactly when the
whitespace-stripped input line case-insensitively matches an exit
keyword; on any other input the stripped utterance is appended to the
transcript and sent to the model. -/
theorem C9_exit_iff (st : ChatState) (raw again : String) (reply : ModelReply) :
    ((pyLower (pyStrip raw) = "exit" ∨ pyLower (pyStrip raw) = "quit") ↔
      run_chat_turn st raw reply again = .exited [.print "Bot: Goodbye!"])
    ∧ (¬(pyLower (pyStrip raw) = "exit" ∨ pyLower (pyStrip raw) = "quit") →
        modelCalls (run_chat_turn st raw reply again).events
          = [st.conversation_messages ++ [("user", pyStrip raw)]]) := by
  have hmem : (pyLower (pyStrip raw) = "exit" ∨ pyLower (pyStrip raw) = "quit")
      ↔ pyLower (pyStrip raw) ∈ exit_keywords := by simp [exit_keywords]
  unfold run_chat_turn
  dsimp only
  by_cases hkw : pyLower (pyStrip raw) ∈ exit_keywords
  · rw [if_pos hkw]
    exact ⟨⟨fun _ => rfl, fun _ => hmem.mpr hkw⟩, fun hn => absurd (hmem.mpr hkw) hn⟩
  · rw [if_neg hkw]
    exact ⟨⟨fun h => absurd (hmem.mp h) hkw,
            fun h => absurd h (turn_body_ne_goodbye st (pyStrip raw) reply again)⟩,
           fun _ => turn_body_modelCalls st (pyStrip raw) reply again⟩

/-- Witness for the amended C9 at concrete inputs: "Quit" terminates
the loop, "hello" is sent to the model appended to the transcript. -/
theorem C9_witness :
    run_chat_turn ⟨ticket_state, []⟩ "Quit" (.invalidJson "x") "n"
      = .exited [.print "Bot: Goodbye!"]
    ∧ modelCalls (run_chat_turn ⟨ticket_state, []⟩ "hello" (.invalidJson "x") "n").events
      = [[("user", pyStrip "hello")]] :=
  ⟨(C9_exit_iff ⟨ticket_state, []⟩ "Quit" "n" (.invalidJson "x")).1.mp
      (Or.inr (by decide)),
   (C9_exit_iff ⟨ticket_state, []⟩ "hello" "n" (.invalidJson "x")).2 (by decide)⟩

/-- Claim C8: on a model reply that fails JSON parsing, the turn prints
an apology, appends exactly one corrective assistant note after the
user utterance, keeps the ticket unchanged, submits nothing, and
continues the loop. -/
theorem C8_invalid_json_turn (st : ChatState) (raw again raw_reply : String)
    (h : ¬(pyLower (pyStrip raw) = "exit" ∨ pyLower (pyStrip raw) = "quit")) :
    run_chat_turn st raw (.invalidJson raw_reply) again =
      .next { ticket := st.ticket,
              conversation_messages :=
                (st.conversation_messages ++ [("user", pyStrip raw)])
                  ++ [corrective_note] }
        [ .modelCall (st.conversation_messages ++ [("user", pyStrip raw)]),
          .print "Bot: Sorry, I had trouble formatting my response. Let me try again.\n" ]
    ∧ submits (run_chat_turn st raw (.invalidJson raw_reply) again).events = [] := by
  have hkw : pyLower (pyStrip raw) ∉ exit_keywords := by
    simpa [exit_keywords] using h
  unfold run_chat_turn
  dsimp only
  rw [if_neg hkw]
  exact ⟨rfl, rfl⟩

/-- Witness for C8 at a concrete input. -/
theorem C8_witness :
    run_chat_turn ⟨ticket_state, []⟩ "hello" (.invalidJson "oops") "n" =
      .next { ticket := ticket_state,
              conversation_messages :=
                (([] : List Message) ++ [("user", pyStrip "hello")])
                  ++ [corrective_note] }
        [ .modelCall (([] : List Message) ++ [("user", pyStrip "hello")]),
          .print "Bot: Sorry, I had trouble formatting my response. Let me try again.\n" ]
    ∧ submits (run_chat_turn ⟨ticket_state, []⟩ "hello" (.invalidJson "oops") "n").events = [] :=
  C8_invalid_json_turn ⟨ticket_state, []⟩ "hello" "n" "oops" (by decide)

/-- Claim C10: for a parsed model response of the documented shape, the
submitter is invoked exactly when the value at is_ticket_ready is
truthy under Python bool coercion (so e.g. the string "false" triggers
a submission, while a missing key, null, false, 0 or "" does not). -/
theorem C10_truthy_readiness (st : ChatState) (raw again : String) (data : Dict)
    (hk : ¬(pyLower (pyStrip raw) = "exit" ∨ pyLower (pyStrip raw) = "quit"))
    (hr : ∃ s, dictGetD data "assistant_reply" (.str "") = .str s)
    (ht : truthy (dictGetD data "ticket" (.obj [])) = false
          ∨ ∃ fs, dictGetD data "ticket" (.obj []) = .obj fs) :
    (submits (run_chat_turn st raw (.parsed data) again).events ≠ []
      ↔ truthy (dictGetD data "is_ticket_ready" (.bool false)) = true) := by
  obtain ⟨s, hs⟩ := hr
  have hkw : pyLower (pyStrip raw) ∉ exit_keywords := by
    simpa [exit_keywords] using hk
  have hobj : ∃ gs, (if truthy (dictGetD data "ticket" (.obj []))
      then dictGetD data "ticket" (.obj []) else JVal.obj []) = .obj gs := by
    rcases ht with ht | ⟨fs, hfs⟩
    · exact ⟨[], by rw [ht]; rfl⟩
    · by_cases htr : truthy (dictGetD data "ticket" (.obj [])) = true
      · exact ⟨fs, by rw [if_pos htr, hfs]⟩
      · exact ⟨[], by rw [if_neg htr]⟩
  obtain ⟨gs, hgs⟩ := hobj
  unfold run_chat_turn turn_body
  dsimp only
  rw [if_neg hkw, hs]
  dsimp only
  rw [hgs]
  dsimp only
  by_cases hready : truthy (dictGetD data "is_ticket_ready" (.bool false)) = true
  · rw [if_pos hready]
    by_cases ha : pyLower (pyStrip again) = "y"
    · rw [if_pos ha]
      simp [hready, TurnResult.events, submits]
    · rw [if_neg ha]
      simp [hready, TurnResult.events, submits]
  · rw [if_neg hready]
    simp [hready, TurnResult.events, submits]

/-- Witness for C10 at a concrete input: the string "false" at
is_ticket_ready is truthy, so the submitter is invoked. -/
theorem C10_witness :
    submits (run_chat_turn ⟨ticket_state, []⟩ "hi"
      (.parsed [ ("assistant_reply", JVal.str "ok"),
                 ("ticket", JVal.obj [("title", JVal.str "T")]),
                 ("is_ticket_ready", JVal.str "false") ]) "n").events ≠ [] :=
  (C10_truthy_readiness ⟨ticket_state, []⟩ "hi" "n"
    [ ("assistant_reply", JVal.str "ok"),
      ("ticket", JVal.obj [("title", JVal.str "T")]),
      ("is_ticket_ready", JVal.str "false") ]
    (by decide) ⟨"ok", rfl⟩ (Or.inr ⟨[("title", JVal.str "T")], rfl⟩)).mpr rfl
